import Mathlib

/-!
Shallow embedding of the `learn_wgpu` application shell
(`src/main.rs`, `src/lib.rs`, `src/app/mod.rs`).

External subsystems (SDL2, wgpu) are modelled by an `Env` record that
supplies the outcome of each external call; GPU objects are abstract
identifiers.  The application context `XApp` mirrors the Rust struct
field for field (the `RefCell<Option<_>>` wrappers become `Option`
fields on an explicitly threaded state record).  Scalar literals from
the source are modelled over `ℚ`.
-/

namespace LearnWgpu

/-- Model of `wgpu::TextureFormat`: an abstract format identifier plus
the answer of the library predicate `TextureFormat::is_srgb`. -/
structure TextureFormat where
  id : Nat
  srgb : Bool
deriving DecidableEq, Repr, Inhabited

/-- The library predicate `TextureFormat::is_srgb()`. -/
def TextureFormat.is_srgb (f : TextureFormat) : Bool := f.srgb

/-- Model of `wgpu::TextureUsages` (only the flag the source uses). -/
inductive TextureUsages where
  | RENDER_ATTACHMENT
deriving DecidableEq, Repr

/-- Model of `wgpu::PresentMode`. -/
inductive PresentMode where
  | Fifo
  | Immediate
  | Mailbox
deriving DecidableEq, Repr

/-- Model of `wgpu::CompositeAlphaMode`. -/
inductive CompositeAlphaMode where
  | Auto
  | Opaque
  | PreMultiplied
deriving DecidableEq, Repr

/-- Model of `wgpu::SurfaceConfiguration` (the fields built in
`XApp::create_config`). -/
structure SurfaceConfiguration where
  usage : TextureUsages
  format : TextureFormat
  width : Nat
  height : Nat
  present_mode : PresentMode
  alpha_mode : CompositeAlphaMode
  view_formats : List TextureFormat
  desired_maximum_frame_latency : Nat
deriving DecidableEq, Repr

/-- Model of `wgpu::SurfaceCapabilities` (only `formats` is consumed by
the non-logging code of `XApp::init`). -/
structure SurfaceCapabilities where
  formats : List TextureFormat
deriving DecidableEq, Repr

/-- One vertex buffer layout entry of a pipeline's vertex state
(`wgpu::VertexBufferLayout`): stride plus attribute offsets.  The
source program declares none (`buffers: &[]`), so in this development
the list of layouts is always empty; the type records what a layout
would carry. -/
structure VertexBufferLayout where
  array_stride : Nat
  attributes : List Nat
deriving DecidableEq, Repr

/-- Model of the render pipeline produced by `XApp::init_pipeline`:
the observable descriptor data of `RenderPipelineDescriptor`. -/
structure RenderPipeline where
  vertex_entry_point : String
  fragment_entry_point : String
  vertex_buffers : List VertexBufferLayout
  target_format : TextureFormat
  blend_replace : Bool
  cull_back : Bool
  front_face_ccw : Bool
  triangle_list : Bool
  sample_count : Nat
deriving DecidableEq, Repr

/-- The application context: field-for-field model of `struct XApp`
(`src/app/mod.rs` lines 14–27).  `RefCell<Option<T>>`/`Cell<u32>`
become plain `Option`/`Nat` fields on an explicitly threaded record.
The Android-only `wgpu_intance` field (source typo kept) is always
present in the model and only ever written on the Android path. -/
structure XApp where
  wgpu_intance : Option Unit
  surface : Option Nat
  device : Option Nat
  config : Option SurfaceConfiguration
  surface_format : Option TextureFormat
  queue : Option Nat
  pipeline : Option RenderPipeline
  event_pump : Option Nat
  window : Option Nat
  window_height : Nat
  window_width : Nat
deriving DecidableEq, Repr

/-- `XApp::new`: every field starts empty / zero. -/
def XApp.new : XApp where
  wgpu_intance := none
  surface := none
  device := none
  config := none
  surface_format := none
  queue := none
  pipeline := none
  event_pump := none
  window := none
  window_height := 0
  window_width := 0

/-- Compile-time configuration flags (`cfg(target_os = "android")`,
`cfg(debug_assertions)`). -/
structure Cfg where
  android : Bool
  debug : Bool
deriving DecidableEq, Repr

/-- Outcomes of the external SDL2/wgpu calls made by the program.  Each
field is the result the respective library call would return; fallible
calls carry their error string. -/
structure Env where
  sdl_init : Except String Unit
  sdl_video : Except String Unit
  sdl_event_pump : Except String Nat
  window_build : Except String (Nat × Nat × Nat)
  create_surface : Except String Nat
  request_adapter : Option Nat
  surface_capabilities : SurfaceCapabilities
  request_device : Except String (Nat × Nat)
  get_current_texture : Except String Unit
deriving Repr

/-- `XApp::init_surface` (lines 196–220): requires a window, asks the
instance for a new surface, and on success stores it in the `surface`
field; returns the error otherwise.  The result pairs the state after
the call with the optional error. -/
def XApp.init_surface (env : Env) (s : XApp) : XApp × Option String :=
  match s.window with
  | none => (s, some "Window is empty")
  | some _ =>
    match env.create_surface with
    | .error e => (s, some e)
    | .ok sid => ({ s with surface := some sid }, none)

/-- `XApp::get_adapter` (lines 222–250): the adapter request either
yields an adapter or the fixed error string. -/
def XApp.get_adapter (env : Env) : Except String Nat :=
  match env.request_adapter with
  | some a => .ok a
  | none => .error "Cannot get adapter"

/-- `XApp::get_surface_capability` (lines 267–304): fails when the
surface field is empty, otherwise returns the surface's capabilities. -/
def XApp.get_surface_capability (env : Env) (s : XApp) :
    Except String SurfaceCapabilities :=
  match s.surface with
  | none => .error "Surface is empty"
  | some _ => .ok env.surface_capabilities

/-- `XApp::get_device_and_queue` (lines 252–265): on success stores the
device and queue in the state. -/
def XApp.get_device_and_queue (env : Env) (s : XApp) : XApp × Option String :=
  match env.request_device with
  | .error e => (s, some e)
  | .ok dq => ({ s with device := some dq.1, queue := some dq.2 }, none)

/-- The surface-format selection of `XApp::init` (lines 105–110):
`formats.iter().copied().find(|f| f.is_srgb()).unwrap_or(formats[0])`.
The Rust indexing `formats[0]` panics on an empty list; the model
returns the inhabited default there, and theorems about the choice
carry a non-emptiness hypothesis. -/
def choose_format (formats : List TextureFormat) : TextureFormat :=
  (formats.find? TextureFormat.is_srgb).getD (formats.headD default)

/-- `XApp::create_config` (lines 306–330): requires the surface format
and builds the fixed surface configuration from it and the recorded
window size. -/
def XApp.create_config (s : XApp) : Except String SurfaceConfiguration :=
  match s.surface_format with
  | none => .error "Surface format is empty"
  | some fmt =>
    .ok { usage := TextureUsages.RENDER_ATTACHMENT
          format := fmt
          width := s.window_width
          height := s.window_height
          present_mode := PresentMode.Fifo
          alpha_mode := CompositeAlphaMode.Auto
          view_formats := []
          desired_maximum_frame_latency := 2 }

/-- `XApp::configure_surface` (lines 332–368): checks config, device
and surface in that order; the actual `surface.configure` call is an
external effect with no observable state change in the model. -/
def XApp.configure_surface (s : XApp) : Option String :=
  match s.config with
  | none => some "Config field is empty"
  | some _ =>
    match s.device with
    | none => some "Device field is empty"
    | some _ =>
      match s.surface with
      | none => some "Surface field is empty"
      | some _ => none

/-- `XApp::init_pipeline` (lines 427–483): requires the device, then
builds the single render pipeline.  Its vertex state declares an empty
list of vertex buffer layouts (`buffers: &[]` at line 453); the color
target takes `self.surface_format.borrow().unwrap()`, whose panic on
`none` is modelled as the `.error` branch being unreachable only under
the hypotheses of the theorems that use it (the model maps the unwrap
of a missing format to `none`, i.e. a panic marker). -/
def XApp.init_pipeline (s : XApp) : Option (Except String RenderPipeline) :=
  match s.device with
  | none => some (.error "Device of XApp is empty")
  | some _ =>
    match s.surface_format with
    | none => none
    | some fmt =>
      some (.ok { vertex_entry_point := "vs_main"
                  fragment_entry_point := "fs_main"
                  vertex_buffers := []
                  target_format := fmt
                  blend_replace := true
                  cull_back := true
                  front_face_ccw := true
                  triangle_list := true
                  sample_count := 1 })

/-- `XApp::init` (lines 47–123), step for step.  The state is threaded
exactly as the Rust code writes its `RefCell` fields, so a failing
step returns the fields already written by earlier steps unchanged.
Note line 94: the `Result` of `init_surface` is discarded by the
source (no `?`), which the model reproduces by keeping only the state
component.  The result is `none` (panic marker) only when
`init_pipeline` would unwrap a missing surface format, which the
theorems show unreachable. -/
def XApp.init (cfg : Cfg) (env : Env) (s : XApp) :
    Option (XApp × Option String) :=
  match env.sdl_init with
  | .error e => some (s, some e)
  | .ok _ =>
  match env.sdl_video with
  | .error e => some (s, some e)
  | .ok _ =>
  match env.sdl_event_pump with
  | .error e => some (s, some e)
  | .ok ep =>
  let s := { s with event_pump := some ep }
  match env.window_build with
  | .error e => some (s, some e)
  | .ok whd =>
  let s := { s with window_width := whd.2.1, window_height := whd.2.2,
                    window := some whd.1 }
  let s := (XApp.init_surface env s).1
  match XApp.get_adapter env with
  | .error e => some (s, some e)
  | .ok _ =>
  let s := if cfg.android then { s with wgpu_intance := some () } else s
  match XApp.get_surface_capability env s with
  | .error e => some (s, some e)
  | .ok caps =>
  let s := { s with surface_format := some (choose_format caps.formats) }
  match XApp.get_device_and_queue env s with
  | (s, some e) => some (s, some e)
  | (s, none) =>
  match XApp.create_config s with
  | .error e => some (s, some e)
  | .ok config =>
  let s := { s with config := some config }
  match XApp.configure_surface s with
  | some e => some (s, some e)
  | none =>
  match XApp.init_pipeline s with
  | none => none
  | some (.error e) => some (s, some e)
  | some (.ok p) => some ({ s with pipeline := some p }, none)

/-- A color literal (modelled over `ℚ`). -/
structure Color where
  r : ℚ
  g : ℚ
  b : ℚ
  a : ℚ
deriving DecidableEq, Repr

/-- The GPU commands the renderer records / issues, in order. -/
inductive GpuCmd where
  | beginRenderPass (clear : Color)
  | setPipeline
  | setVertexBuffer (slot : Nat) (offset : Nat)
  | draw (vertexStart vertexEnd instanceStart instanceEnd : Nat)
  | submit (commandBuffers : Nat)
  | present
deriving DecidableEq, Repr

/-- `XApp::render` (lines 370–425) as the trace of GPU commands it
issues.  `none` marks a reached `unwrap` panic branch (surface, device,
pipeline or queue field empty), matching the order the source unwraps
them; `some (.error e)` is the propagated `get_current_texture`
failure.  On success the trace is exactly what the source records:
begin the clearing render pass, set the pipeline, one draw of vertex
range `0..3` and instance range `0..1`, submit the single finished
command buffer, present. -/
def XApp.render (env : Env) (s : XApp) : Option (Except String (List GpuCmd)) :=
  match s.surface with
  | none => none
  | some _ =>
    match env.get_current_texture with
    | .error e => some (.error e)
    | .ok _ =>
      match s.device with
      | none => none
      | some _ =>
        match s.pipeline with
        | none => none
        | some _ =>
          match s.queue with
          | none => none
          | some _ =>
            some (.ok
              [ GpuCmd.beginRenderPass ⟨1/10, 2/10, 3/10, 1⟩,
                GpuCmd.setPipeline,
                GpuCmd.draw 0 3 0 1,
                GpuCmd.submit 1,
                GpuCmd.present ])

/-- The SDL events the frame loop distinguishes (lines 140–188). -/
inductive Event where
  | quit
  | keyDownEscape
  | appWillEnterForeground
  | other (n : Nat)
deriving DecidableEq, Repr

/-- Result of draining one batch of pending events (the `for event in
event_pump.poll_iter()` body, lines 139–189): either `break 'run` was
hit, or an error was returned out of `run`, or the batch was drained
completely and control falls through to the render call. -/
inductive DrainResult where
  | brk
  | err (e : String)
  | done (s : XApp)
deriving DecidableEq, Repr

/-- One pass over the pending events, event by event, mirroring the
`match event` arms: `Quit` breaks the loop; `Escape` key-down breaks
only when compiled for non-Android debug builds (line 153) and is
otherwise ignored; `AppWillEnterForeground` on Android re-runs
`init_surface` against the retained instance, propagating its error
with `?` (lines 172–182); every other event is ignored. -/
def drain (cfg : Cfg) (env : Env) (s : XApp) : List Event → DrainResult
  | [] => .done s
  | ev :: rest =>
    match ev with
    | .quit => .brk
    | .keyDownEscape =>
      if !cfg.android && cfg.debug then .brk else drain cfg env s rest
    | .appWillEnterForeground =>
      if cfg.android then
        match s.wgpu_intance with
        | none => .err "WGPU intance is empty"
        | some _ =>
          match XApp.init_surface env s with
          | (s', none) => drain cfg env s' rest
          | (_, some e) => .err e
      else drain cfg env s rest
    | .other _ => drain cfg env s rest

/-- An observable action of one `'run` iteration: the single render
call issued after the drain. -/
inductive Action where
  | renderCall
deriving DecidableEq, Repr

/-- Outcome of the frame loop. -/
inductive RunOutcome where
  | quitOk
  | error (e : String)
  | panic
  | running (s : XApp)
deriving DecidableEq, Repr

/-- The `'run: loop` of `XApp::run` (lines 138–192) over a finite
schedule of event batches: iteration `i` drains batch `i`, then calls
`render` exactly once; `render`'s error exits the loop with that error
(`self.render()?`).  When the schedule is exhausted the loop is still
`running` (the real loop never terminates by itself).  The returned
trace lists the render calls issued from this point on. -/
def runLoop (cfg : Cfg) (env : Env) : XApp → List (List Event) →
    List Action × RunOutcome
  | s, [] => ([], .running s)
  | s, batch :: rest =>
    match drain cfg env s batch with
    | .brk => ([], .quitOk)
    | .err e => ([], .error e)
    | .done s' =>
      match XApp.render env s' with
      | none => ([Action.renderCall], .panic)
      | some (.error e) => ([Action.renderCall], .error e)
      | some (.ok _) =>
        let t := runLoop cfg env s' rest
        (Action.renderCall :: t.1, t.2)

/-- `XApp::run` (lines 125–194): fails with the fixed string when the
event pump field is empty (lines 127–136), otherwise enters the frame
loop. -/
def XApp.run (cfg : Cfg) (env : Env) (s : XApp) (batches : List (List Event)) :
    List Action × RunOutcome :=
  match s.event_pump with
  | none => ([], .error "Event pum is None")
  | some _ => runLoop cfg env s batches

/-- `SDL_main` (`src/lib.rs` lines 8–22): construct the app, return 1
when `init` errs, 2 when `run` errs, 0 otherwise.  `none` propagates a
modelled panic (never reached: `init` only panics on an impossible
format unwrap and `run`'s panic outcome ends the process abnormally,
not with a return code; a `running` outcome is the model's finite
schedule running out, on which the real process has not exited, so it
is also mapped to `none`). -/
def SDL_main (cfg : Cfg) (env : Env) (batches : List (List Event)) :
    Option Nat :=
  match XApp.init cfg env XApp.new with
  | none => none
  | some (_, some _) => some 1
  | some (s, none) =>
    match XApp.run cfg env s batches with
    | (_, .error _) => some 2
    | (_, .quitOk) => some 0
    | (_, .panic) => none
    | (_, .running _) => none

/-! ### Concrete fixtures used by witnesses and counterexamples -/

/-- Desktop debug build (`not(target_os = "android")`, `debug_assertions`). -/
def cfgDesk : Cfg := ⟨false, true⟩

/-- Android debug build. -/
def cfgDroid : Cfg := ⟨true, true⟩

/-- An environment in which every external call succeeds; the surface
reports a non-sRGB format first, then two sRGB formats. -/
def envOk : Env where
  sdl_init := .ok ()
  sdl_video := .ok ()
  sdl_event_pump := .ok 7
  window_build := .ok (1, 1920, 1080)
  create_surface := .ok 2
  request_adapter := some 3
  surface_capabilities := ⟨[⟨0, false⟩, ⟨1, true⟩, ⟨2, true⟩]⟩
  request_device := .ok (4, 5)
  get_current_texture := .ok ()

/-- `envOk` with a failing window build. -/
def envWinFail : Env := { envOk with window_build := .error "win boom" }

/-- `envOk` with a failing adapter request. -/
def envNoAdapter : Env := { envOk with request_adapter := none }

/-- `envOk` with a failing per-frame surface-texture acquisition. -/
def envRenderFail : Env := { envOk with get_current_texture := .error "surface lost" }

/-- The application context `XApp.init cfgDesk envOk XApp.new` produces. -/
def stateOk : XApp where
  wgpu_intance := none
  surface := some 2
  device := some 4
  config := some
    { usage := TextureUsages.RENDER_ATTACHMENT
      format := ⟨1, true⟩
      width := 1920
      height := 1080
      present_mode := PresentMode.Fifo
      alpha_mode := CompositeAlphaMode.Auto
      view_formats := []
      desired_maximum_frame_latency := 2 }
  surface_format := some ⟨1, true⟩
  queue := some 5
  pipeline := some
    { vertex_entry_point := "vs_main"
      fragment_entry_point := "fs_main"
      vertex_buffers := []
      target_format := ⟨1, true⟩
      blend_replace := true
      cull_back := true
      front_face_ccw := true
      triangle_list := true
      sample_count := 1 }
  event_pump := some 7
  window := some 1
  window_height := 1080
  window_width := 1920

/-- The state `XApp.init cfgDesk envWinFail XApp.new` leaves behind:
only the event pump, written before the failing window build, is set. -/
def stateWinFail : XApp := { XApp.new with event_pump := some 7 }

/-- The successful render trace of the source program. -/
def traceOk : List GpuCmd :=
  [ GpuCmd.beginRenderPass ⟨1/10, 2/10, 3/10, 1⟩,
    GpuCmd.setPipeline,
    GpuCmd.draw 0 3 0 1,
    GpuCmd.submit 1,
    GpuCmd.present ]

/-- The state `XApp.init cfgDroid envOk XApp.new` produces (same as
`stateOk`, plus the retained wgpu instance). -/
def stateOkDroid : XApp := { stateOk with wgpu_intance := some () }

/-- The state `XApp.init cfgDesk envNoAdapter XApp.new` leaves behind:
everything up to surface creation succeeded before the adapter request
failed. -/
def stateNoAdapter : XApp :=
  { XApp.new with event_pump := some 7, window := some 1,
                  window_width := 1920, window_height := 1080,
                  surface := some 2 }

/-- Recognizer for `submit` commands. -/
def GpuCmd.isSubmit : GpuCmd → Bool
  | .submit _ => true
  | _ => false

/-- Recognizer for `present` commands. -/
def GpuCmd.isPresent : GpuCmd → Bool
  | .present => true
  | _ => false

/-- Recognizer for `draw` commands. -/
def GpuCmd.isDraw : GpuCmd → Bool
  | .draw _ _ _ _ => true
  | _ => false

/-- Recognizer for vertex-buffer-binding commands. -/
def GpuCmd.isSetVertexBuffer : GpuCmd → Bool
  | .setVertexBuffer _ _ => true
  | _ => false

/-! ### Shape of a successfully initialized context -/

/-- After a successful `init`, the surface, device, queue and event
pump are populated, the stored surface format is the one selected by
the `find`/`unwrap_or` expression, and the stored configuration and
pipeline are exactly the records the source builds from it. -/
theorem init_ok_shape (cfg : Cfg) (env : Env) (s s' : XApp)
    (h : XApp.init cfg env s = some (s', none)) :
    s'.surface.isSome = true ∧ s'.device.isSome = true ∧
    s'.queue.isSome = true ∧ s'.event_pump.isSome = true ∧
    s'.surface_format = some (choose_format env.surface_capabilities.formats) ∧
    s'.config = some
      { usage := TextureUsages.RENDER_ATTACHMENT
        format := choose_format env.surface_capabilities.formats
        width := s'.window_width
        height := s'.window_height
        present_mode := PresentMode.Fifo
        alpha_mode := CompositeAlphaMode.Auto
        view_formats := []
        desired_maximum_frame_latency := 2 } ∧
    s'.pipeline = some
      { vertex_entry_point := "vs_main"
        fragment_entry_point := "fs_main"
        vertex_buffers := []
        target_format := choose_format env.surface_capabilities.formats
        blend_replace := true
        cull_back := true
        front_face_ccw := true
        triangle_list := true
        sample_count := 1 } := by
  obtain ⟨si, sv, sep, wb, cs, ra, caps, rd, gct⟩ := env
  obtain ⟨ca, cd⟩ := cfg
  cases si <;> cases sv <;> cases sep <;> cases wb <;> cases cs <;>
    cases ra <;> cases rd <;> cases ca <;> cases hsurf : s.surface <;>
    simp_all [XApp.init, XApp.init_surface, XApp.get_adapter,
      XApp.get_surface_capability, XApp.get_device_and_queue,
      XApp.create_config, XApp.configure_surface, XApp.init_pipeline] <;>
    (try subst h) <;> simp [hsurf]

/-! ### Helper lemmas about `List.find?` -/

/-- `List.find?` returns an element at an index before which every
element fails the predicate. -/
theorem find?_first_index {α : Type} (p : α → Bool) :
    ∀ (l : List α) (a : α), l.find? p = some a →
      ∃ i, ∃ hi : i < l.length, l.get ⟨i, hi⟩ = a ∧ p a = true ∧
        ∀ j, ∀ hj : j < l.length, j < i → p (l.get ⟨j, hj⟩) = false
  | [], a, h => by simp [List.find?] at h
  | x :: xs, a, h => by
    by_cases hx : p x = true
    · rw [List.find?_cons_of_pos _ hx] at h
      cases h
      exact ⟨0, Nat.succ_pos _, rfl, hx,
        fun j hj hj0 => absurd hj0 (Nat.not_lt_zero j)⟩
    · rw [List.find?_cons_of_neg _ hx] at h
      obtain ⟨i, hi, hget, hpa, hbefore⟩ := find?_first_index p xs a h
      refine ⟨i + 1, Nat.succ_lt_succ hi, by simpa using hget, hpa, ?_⟩
      intro j hj hji
      cases j with
      | zero => simpa using eq_false_of_ne_true hx
      | succ k =>
        have hk : k < xs.length := Nat.lt_of_succ_lt_succ hj
        simpa using hbefore k hk (Nat.lt_of_succ_lt_succ hji)

/-- When some member satisfies the predicate, `List.find?` succeeds. -/
theorem find?_isSome_of_mem {α : Type} (p : α → Bool) (l : List α) (a : α)
    (ha : a ∈ l) (hp : p a = true) : ∃ b, l.find? p = some b := by
  induction l with
  | nil => cases ha
  | cons x xs ih =>
    by_cases hx : p x = true
    · exact ⟨x, List.find?_cons_of_pos _ hx⟩
    · rcases List.mem_cons.mp ha with rfl | hmem
      · exact absurd hp hx
      · obtain ⟨b, hb⟩ := ih hmem
        exact ⟨b, by rw [List.find?_cons_of_neg _ hx, hb]⟩

/-- When no member satisfies the predicate, `List.find?` fails. -/
theorem find?_none_of_all {α : Type} (p : α → Bool) (l : List α)
    (h : ∀ a ∈ l, p a = false) : l.find? p = none := by
  induction l with
  | nil => rfl
  | cons x xs ih =>
    rw [List.find?_cons_of_neg _ (by simp [h x (List.mem_cons_self x xs)])]
    exact ih fun a ha => h a (List.mem_cons_of_mem _ ha)

/-- The default-valued head of a non-empty list is its first element. -/
theorem headD_eq_get_zero {α : Type} (l : List α) (hne : l ≠ []) (d : α) :
    l.headD d = l.get ⟨0, List.length_pos.mpr hne⟩ := by
  cases l with
  | nil => exact absurd rfl hne
  | cons x xs => rfl

/-! ### Claim theorems -/

/-- C1: for the surface-capabilities format list produced during
bootstrap, if at least one format satisfies the sRGB predicate, the
surface format chosen by `init` is the first sRGB format in list
order; otherwise it is the first format in the list. -/
theorem init_picks_first_srgb_format (cfg : Cfg) (env : Env) (s s' : XApp)
    (h : XApp.init cfg env s = some (s', none))
    (hne : env.surface_capabilities.formats ≠ []) :
    s'.surface_format = some (choose_format env.surface_capabilities.formats) ∧
    ((∃ f ∈ env.surface_capabilities.formats, f.is_srgb = true) →
      ∃ i, ∃ hi : i < env.surface_capabilities.formats.length,
        choose_format env.surface_capabilities.formats =
          env.surface_capabilities.formats.get ⟨i, hi⟩ ∧
        (env.surface_capabilities.formats.get ⟨i, hi⟩).is_srgb = true ∧
        ∀ j, ∀ hj : j < env.surface_capabilities.formats.length, j < i →
          (env.surface_capabilities.formats.get ⟨j, hj⟩).is_srgb = false) ∧
    ((∀ f ∈ env.surface_capabilities.formats, f.is_srgb = false) →
      choose_format env.surface_capabilities.formats =
        env.surface_capabilities.formats.get
          ⟨0, List.length_pos.mpr hne⟩) := by
  refine ⟨(init_ok_shape cfg env s s' h).2.2.2.2.1, ?_, ?_⟩
  · rintro ⟨f, hf, hsrgb⟩
    obtain ⟨b, hb⟩ :=
      find?_isSome_of_mem TextureFormat.is_srgb _ f hf hsrgb
    obtain ⟨i, hi, hget, hpb, hbef⟩ :=
      find?_first_index TextureFormat.is_srgb _ b hb
    refine ⟨i, hi, by rw [choose_format, hb, Option.getD_some]; exact hget.symm,
      ?_, hbef⟩
    rw [hget]
    exact hpb
  · intro hall
    rw [choose_format, find?_none_of_all _ _ hall, Option.getD_none]
    exact headD_eq_get_zero _ hne _

/-- Witness for C1 at the concrete bootstrap `envOk`, whose format list
is non-sRGB, sRGB, sRGB. -/
theorem init_picks_first_srgb_format_witness :
    XApp.init cfgDesk envOk XApp.new = some (stateOk, none) ∧
    envOk.surface_capabilities.formats ≠ [] ∧
    (stateOk.surface_format =
        some (choose_format envOk.surface_capabilities.formats) ∧
      ((∃ f ∈ envOk.surface_capabilities.formats, f.is_srgb = true) →
        ∃ i, ∃ hi : i < envOk.surface_capabilities.formats.length,
          choose_format envOk.surface_capabilities.formats =
            envOk.surface_capabilities.formats.get ⟨i, hi⟩ ∧
          (envOk.surface_capabilities.formats.get ⟨i, hi⟩).is_srgb = true ∧
          ∀ j, ∀ hj : j < envOk.surface_capabilities.formats.length, j < i →
            (envOk.surface_capabilities.formats.get ⟨j, hj⟩).is_srgb = false) ∧
      ((∀ f ∈ envOk.surface_capabilities.formats, f.is_srgb = false) →
        choose_format envOk.surface_capabilities.formats =
          envOk.surface_capabilities.formats.get
            ⟨0, List.length_pos.mpr (by decide)⟩)) :=
  ⟨by decide, by decide,
    init_picks_first_srgb_format cfgDesk envOk XApp.new stateOk
      (by decide) (by decide)⟩

/-- C10: after a successful `init` the surface, device, queue and
pipeline fields are all populated, so none of `render`'s `unwrap`
operations reaches its panic branch (the panic marker `none` is
unreachable for any per-frame environment). -/
theorem init_ok_render_never_panics (cfg : Cfg) (env env' : Env) (s s' : XApp)
    (h : XApp.init cfg env s = some (s', none)) :
    s'.surface.isSome = true ∧ s'.device.isSome = true ∧
    s'.queue.isSome = true ∧ s'.pipeline.isSome = true ∧
    XApp.render env' s' ≠ none := by
  obtain ⟨h1, h2, h3, _, _, _, h7⟩ := init_ok_shape cfg env s s' h
  refine ⟨h1, h2, h3, by simp [h7], ?_⟩
  obtain ⟨sid, hs⟩ := Option.isSome_iff_exists.mp h1
  obtain ⟨d, hd⟩ := Option.isSome_iff_exists.mp h2
  obtain ⟨q, hq⟩ := Option.isSome_iff_exists.mp h3
  cases hg : env'.get_current_texture with
  | error e => simp [XApp.render, hs, hd, hq, h7, hg]
  | ok u => simp [XApp.render, hs, hd, hq, h7, hg]

/-- Witness for C10 at the concrete bootstrap `envOk`. -/
theorem init_ok_render_never_panics_witness :
    XApp.init cfgDesk envOk XApp.new = some (stateOk, none) ∧
    (stateOk.surface.isSome = true ∧ stateOk.device.isSome = true ∧
      stateOk.queue.isSome = true ∧ stateOk.pipeline.isSome = true ∧
      XApp.render envOk stateOk ≠ none) :=
  ⟨by decide,
    init_ok_render_never_panics cfgDesk envOk envOk XApp.new stateOk
      (by decide)⟩

/-- Every successful render call produces exactly the source's command
trace. -/
theorem render_ok_trace (env : Env) (s : XApp) (t : List GpuCmd)
    (h : XApp.render env s = some (.ok t)) : t = traceOk := by
  cases hs : s.surface <;> cases hg : env.get_current_texture <;>
    cases hd : s.device <;> cases hp : s.pipeline <;> cases hq : s.queue <;>
    simp_all [XApp.render, traceOk]

/-- C8: the surface configuration built by `init` has render-attachment
usage, the chosen surface format, the recorded window width and
height, Fifo (vsync-locked) presentation, automatic alpha compositing
and a maximum in-flight frame count of 2. -/
theorem init_config_contents (cfg : Cfg) (env : Env) (s s' : XApp)
    (h : XApp.init cfg env s = some (s', none)) :
    ∃ fmt, s'.surface_format = some fmt ∧
      s'.config = some
        { usage := TextureUsages.RENDER_ATTACHMENT
          format := fmt
          width := s'.window_width
          height := s'.window_height
          present_mode := PresentMode.Fifo
          alpha_mode := CompositeAlphaMode.Auto
          view_formats := []
          desired_maximum_frame_latency := 2 } := by
  obtain ⟨_, _, _, _, h5, h6, _⟩ := init_ok_shape cfg env s s' h
  exact ⟨_, h5, h6⟩

/-- Witness for C8 at the concrete bootstrap `envOk`. -/
theorem init_config_contents_witness :
    XApp.init cfgDesk envOk XApp.new = some (stateOk, none) ∧
    ∃ fmt, stateOk.surface_format = some fmt ∧
      stateOk.config = some
        { usage := TextureUsages.RENDER_ATTACHMENT
          format := fmt
          width := stateOk.window_width
          height := stateOk.window_height
          present_mode := PresentMode.Fifo
          alpha_mode := CompositeAlphaMode.Auto
          view_formats := []
          desired_maximum_frame_latency := 2 } :=
  ⟨by decide, init_config_contents cfgDesk envOk XApp.new stateOk (by decide)⟩

/-- C7: every successful render call submits exactly one command buffer
to the queue and issues exactly one present, the submission strictly
before the present, and exactly one draw call, covering vertex range
[0,3) and instance range [0,1). -/
theorem render_one_submit_one_present (env : Env) (s : XApp)
    (t : List GpuCmd) (h : XApp.render env s = some (.ok t)) :
    t.filter GpuCmd.isSubmit = [GpuCmd.submit 1] ∧
    t.filter GpuCmd.isPresent = [GpuCmd.present] ∧
    t.filter GpuCmd.isDraw = [GpuCmd.draw 0 3 0 1] ∧
    ∃ i j, ∃ hi : i < t.length, ∃ hj : j < t.length, i < j ∧
      (t.get ⟨i, hi⟩).isSubmit = true ∧ (t.get ⟨j, hj⟩).isPresent = true := by
  have ht : t = traceOk := render_ok_trace env s t h
  subst ht
  exact ⟨rfl, rfl, rfl, 3, 4, by decide, by decide, by decide, rfl, rfl⟩

/-- Witness for C7 at the concrete render `envOk`/`stateOk`. -/
theorem render_one_submit_one_present_witness :
    XApp.render envOk stateOk = some (.ok traceOk) ∧
    (traceOk.filter GpuCmd.isSubmit = [GpuCmd.submit 1] ∧
      traceOk.filter GpuCmd.isPresent = [GpuCmd.present] ∧
      traceOk.filter GpuCmd.isDraw = [GpuCmd.draw 0 3 0 1] ∧
      ∃ i j, ∃ hi : i < traceOk.length, ∃ hj : j < traceOk.length, i < j ∧
        (traceOk.get ⟨i, hi⟩).isSubmit = true ∧
        (traceOk.get ⟨j, hj⟩).isPresent = true) :=
  ⟨rfl, render_one_submit_one_present envOk stateOk traceOk rfl⟩

/-- C2 counterexample: at the concrete successful bootstrap `envOk`,
the pipeline built by `init` declares no vertex buffer layouts, and a
successful render call's command trace contains no vertex-buffer
binding at all — so no 3-vertex GPU vertex buffer is bound before the
draw call, contrary to the claim. -/
theorem no_vertex_buffer_bound_cx :
    XApp.init cfgDesk envOk XApp.new = some (stateOk, none) ∧
    XApp.render envOk stateOk = some (.ok traceOk) ∧
    (¬ ∃ c ∈ traceOk, c.isSetVertexBuffer = true) ∧
    ∃ p, stateOk.pipeline = some p ∧ p.vertex_buffers = [] := by
  refine ⟨by decide, rfl, by decide, ?_⟩
  exact ⟨_, rfl, rfl⟩

/-- C2 (amended): setup creates no vertex buffer — the pipeline built
by `init` declares an empty vertex-buffer-layout list — and every
successful render call binds only the pipeline (its command trace
contains no vertex-buffer binding) before issuing its single draw call
of vertex range [0,3). -/
theorem render_binds_pipeline_only (cfg : Cfg) (env env' : Env)
    (s s' : XApp) (t : List GpuCmd)
    (h : XApp.init cfg env s = some (s', none))
    (hr : XApp.render env' s' = some (.ok t)) :
    (∃ p, s'.pipeline = some p ∧ p.vertex_buffers = []) ∧
    t.filter GpuCmd.isSetVertexBuffer = [] ∧
    t.filter GpuCmd.isDraw = [GpuCmd.draw 0 3 0 1] ∧
    ∃ i j, ∃ hi : i < t.length, ∃ hj : j < t.length, i < j ∧
      t.get ⟨i, hi⟩ = GpuCmd.setPipeline ∧
      t.get ⟨j, hj⟩ = GpuCmd.draw 0 3 0 1 := by
  obtain ⟨_, _, _, _, _, _, h7⟩ := init_ok_shape cfg env s s' h
  have ht : t = traceOk := render_ok_trace env' s' t hr
  subst ht
  exact ⟨⟨_, h7, rfl⟩, rfl, rfl, 1, 2, by decide, by decide, by decide,
    rfl, rfl⟩

/-- Witness for the amended C2 at the concrete bootstrap `envOk`. -/
theorem render_binds_pipeline_only_witness :
    XApp.init cfgDesk envOk XApp.new = some (stateOk, none) ∧
    XApp.render envOk stateOk = some (.ok traceOk) ∧
    ((∃ p, stateOk.pipeline = some p ∧ p.vertex_buffers = []) ∧
      traceOk.filter GpuCmd.isSetVertexBuffer = [] ∧
      traceOk.filter GpuCmd.isDraw = [GpuCmd.draw 0 3 0 1] ∧
      ∃ i j, ∃ hi : i < traceOk.length, ∃ hj : j < traceOk.length, i < j ∧
        traceOk.get ⟨i, hi⟩ = GpuCmd.setPipeline ∧
        traceOk.get ⟨j, hj⟩ = GpuCmd.draw 0 3 0 1) :=
  ⟨by decide, rfl,
    render_binds_pipeline_only cfgDesk envOk envOk XApp.new stateOk traceOk
      (by decide) rfl⟩

/-- C5 counterexample: with a window build that fails after the event
pump was created, `init` returns a string error yet leaves the event
pump populated — state from earlier successful steps is retained, so
construction is not all-or-nothing. -/
theorem init_partial_state_cx :
    XApp.init cfgDesk envWinFail XApp.new =
      some (stateWinFail, some "win boom") ∧
    stateWinFail.event_pump = some 7 ∧ stateWinFail.event_pump ≠ none := by
  decide

/-- When `init` fails at any step after the event-pump step succeeded,
the event pump written by that step remains populated. -/
theorem init_fail_event_pump_retained (cfg : Cfg) (env : Env)
    (s s' : XApp) (e : String) (ep : Nat)
    (h : XApp.init cfg env s = some (s', some e))
    (h1 : env.sdl_init = .ok ()) (h2 : env.sdl_video = .ok ())
    (h3 : env.sdl_event_pump = .ok ep) :
    s'.event_pump = some ep := by
  obtain ⟨si, sv, sep, wb, cs, ra, caps, rd, gct⟩ := env
  obtain ⟨ca, cd⟩ := cfg
  cases wb <;> cases cs <;> cases ra <;> cases rd <;> cases ca <;>
    cases hsurf : s.surface <;>
    simp_all [XApp.init, XApp.init_surface, XApp.get_adapter,
      XApp.get_surface_capability, XApp.get_device_and_queue,
      XApp.create_config, XApp.configure_surface, XApp.init_pipeline] <;>
    (try rcases h with ⟨rfl, rfl⟩) <;> simp [hsurf]

/-- When `init` fails at any step after the window build succeeded,
the window and its recorded size remain populated. -/
theorem init_fail_window_retained (cfg : Cfg) (env : Env)
    (s s' : XApp) (e : String) (ep wid w ht : Nat)
    (h : XApp.init cfg env s = some (s', some e))
    (h1 : env.sdl_init = .ok ()) (h2 : env.sdl_video = .ok ())
    (h3 : env.sdl_event_pump = .ok ep)
    (h4 : env.window_build = .ok (wid, w, ht)) :
    s'.window = some wid ∧ s'.window_width = w ∧ s'.window_height = ht := by
  obtain ⟨si, sv, sep, wb, cs, ra, caps, rd, gct⟩ := env
  obtain ⟨ca, cd⟩ := cfg
  cases cs <;> cases ra <;> cases rd <;> cases ca <;>
    cases hsurf : s.surface <;>
    simp_all [XApp.init, XApp.init_surface, XApp.get_adapter,
      XApp.get_surface_capability, XApp.get_device_and_queue,
      XApp.create_config, XApp.configure_surface, XApp.init_pipeline] <;>
    (try rcases h with ⟨rfl, rfl⟩) <;> simp [hsurf]

/-- When `init` fails at any step after surface creation succeeded,
the surface remains populated. -/
theorem init_fail_surface_retained (cfg : Cfg) (env : Env)
    (s s' : XApp) (e : String) (ep wid w ht sid : Nat)
    (h : XApp.init cfg env s = some (s', some e))
    (h1 : env.sdl_init = .ok ()) (h2 : env.sdl_video = .ok ())
    (h3 : env.sdl_event_pump = .ok ep)
    (h4 : env.window_build = .ok (wid, w, ht))
    (h5 : env.create_surface = .ok sid) :
    s'.surface = some sid := by
  obtain ⟨si, sv, sep, wb, cs, ra, caps, rd, gct⟩ := env
  obtain ⟨ca, cd⟩ := cfg
  cases ra <;> cases rd <;> cases ca <;> cases hsurf : s.surface <;>
    simp_all [XApp.init, XApp.init_surface, XApp.get_adapter,
      XApp.get_surface_capability, XApp.get_device_and_queue,
      XApp.create_config, XApp.configure_surface, XApp.init_pipeline] <;>
    (try rcases h with ⟨rfl, rfl⟩) <;> simp [hsurf]

/-- C5 (amended): whenever `init` fails — at whichever step — it
returns a single string-typed error, and every field written by an
earlier successful step remains populated: the event pump once the
event-pump step succeeded, the window and its recorded size once the
window build succeeded, and the surface once surface creation
succeeded.  Construction is not all-or-nothing. -/
theorem init_fail_keeps_earlier_fields (cfg : Cfg) (env : Env)
    (s s' : XApp) (e : String)
    (h : XApp.init cfg env s = some (s', some e)) :
    (∀ ep, env.sdl_init = .ok () → env.sdl_video = .ok () →
      env.sdl_event_pump = .ok ep → s'.event_pump = some ep) ∧
    (∀ ep wid w ht, env.sdl_init = .ok () → env.sdl_video = .ok () →
      env.sdl_event_pump = .ok ep → env.window_build = .ok (wid, w, ht) →
      s'.window = some wid ∧ s'.window_width = w ∧ s'.window_height = ht) ∧
    (∀ ep wid w ht sid, env.sdl_init = .ok () → env.sdl_video = .ok () →
      env.sdl_event_pump = .ok ep → env.window_build = .ok (wid, w, ht) →
      env.create_surface = .ok sid → s'.surface = some sid) := by
  refine ⟨fun ep h1 h2 h3 =>
      init_fail_event_pump_retained cfg env s s' e ep h h1 h2 h3,
    fun ep wid w ht h1 h2 h3 h4 =>
      init_fail_window_retained cfg env s s' e ep wid w ht h h1 h2 h3 h4,
    fun ep wid w ht sid h1 h2 h3 h4 h5 =>
      init_fail_surface_retained cfg env s s' e ep wid w ht sid
        h h1 h2 h3 h4 h5⟩

/-- Witness for the amended C5 at the concrete adapter-request failure,
which comes after the event pump, window and surface were all set. -/
theorem init_fail_keeps_earlier_fields_witness :
    XApp.init cfgDesk envNoAdapter XApp.new =
      some (stateNoAdapter, some "Cannot get adapter") ∧
    ((∀ ep, envNoAdapter.sdl_init = .ok () →
        envNoAdapter.sdl_video = .ok () →
        envNoAdapter.sdl_event_pump = .ok ep →
        stateNoAdapter.event_pump = some ep) ∧
      (∀ ep wid w ht, envNoAdapter.sdl_init = .ok () →
        envNoAdapter.sdl_video = .ok () →
        envNoAdapter.sdl_event_pump = .ok ep →
        envNoAdapter.window_build = .ok (wid, w, ht) →
        stateNoAdapter.window = some wid ∧
          stateNoAdapter.window_width = w ∧
          stateNoAdapter.window_height = ht) ∧
      (∀ ep wid w ht sid, envNoAdapter.sdl_init = .ok () →
        envNoAdapter.sdl_video = .ok () →
        envNoAdapter.sdl_event_pump = .ok ep →
        envNoAdapter.window_build = .ok (wid, w, ht) →
        envNoAdapter.create_surface = .ok sid →
        stateNoAdapter.surface = some sid)) :=
  ⟨by decide,
    init_fail_keeps_earlier_fields cfgDesk envNoAdapter XApp.new
      stateNoAdapter "Cannot get adapter" (by decide)⟩

/-- C4: `SDL_main` exits with code 1 when bootstrap (`init`) fails,
and after a successful bootstrap exits with code 2 when the frame loop
(`run`) fails with an error and with code 0 when it terminates
gracefully. -/
theorem SDL_main_exit_codes (cfg : Cfg) (env : Env)
    (batches : List (List Event)) :
    (∀ s' e, XApp.init cfg env XApp.new = some (s', some e) →
      SDL_main cfg env batches = some 1) ∧
    (∀ s', XApp.init cfg env XApp.new = some (s', none) →
      (∀ acts e, XApp.run cfg env s' batches = (acts, RunOutcome.error e) →
        SDL_main cfg env batches = some 2) ∧
      (∀ acts, XApp.run cfg env s' batches = (acts, RunOutcome.quitOk) →
        SDL_main cfg env batches = some 0)) := by
  refine ⟨fun s' e h => by simp [SDL_main, h], fun s' h => ⟨?_, ?_⟩⟩
  · intro acts e hr
    simp [SDL_main, h, hr]
  · intro acts hr
    simp [SDL_main, h, hr]

/-- Witness for C4: all three exit codes at concrete environments
(adapter failure, render failure after good bootstrap, graceful
quit). -/
theorem SDL_main_exit_codes_witness :
    SDL_main cfgDesk envNoAdapter [] = some 1 ∧
    SDL_main cfgDesk envRenderFail [[]] = some 2 ∧
    SDL_main cfgDesk envOk [[Event.quit]] = some 0 :=
  ⟨(SDL_main_exit_codes cfgDesk envNoAdapter []).1 stateNoAdapter
      "Cannot get adapter" (by decide),
    ((SDL_main_exit_codes cfgDesk envRenderFail [[]]).2 stateOk
      (by decide)).1 [Action.renderCall] "surface lost" (by decide),
    ((SDL_main_exit_codes cfgDesk envOk [[Event.quit]]).2 stateOk
      (by decide)).2 [] (by decide)⟩

/-- Draining a batch that contains a quit event never falls through to
the render call: the drain ends the loop with a break or an error. -/
theorem drain_quit_not_done (cfg : Cfg) (env : Env) :
    ∀ (evs : List Event) (s : XApp), Event.quit ∈ evs →
      drain cfg env s evs = DrainResult.brk ∨
      ∃ e, drain cfg env s evs = DrainResult.err e := by
  intro evs
  induction evs with
  | nil => intro s h; cases h
  | cons ev rest ih =>
    intro s h
    cases ev with
    | quit => exact Or.inl rfl
    | keyDownEscape =>
      have hr : Event.quit ∈ rest := by
        rcases List.mem_cons.mp h with h0 | h0
        · simp at h0
        · exact h0
      by_cases hc : (!cfg.android && cfg.debug) = true
      · exact Or.inl (by simp [drain, hc])
      · have hstep : drain cfg env s (Event.keyDownEscape :: rest) =
            drain cfg env s rest := by simp [drain, hc]
        rw [hstep]
        exact ih s hr
    | appWillEnterForeground =>
      have hr : Event.quit ∈ rest := by
        rcases List.mem_cons.mp h with h0 | h0
        · simp at h0
        · exact h0
      by_cases ha : cfg.android = true
      · cases hw : s.wgpu_intance with
        | none =>
          exact Or.inr ⟨"WGPU intance is empty", by simp [drain, ha, hw]⟩
        | some u =>
          rcases hi : XApp.init_surface env s with ⟨s2, err⟩
          cases err with
          | none =>
            have hstep :
                drain cfg env s (Event.appWillEnterForeground :: rest) =
                  drain cfg env s2 rest := by simp [drain, ha, hw, hi]
            rw [hstep]
            exact ih s2 hr
          | some e =>
            exact Or.inr ⟨e, by simp [drain, ha, hw, hi]⟩
      · have hstep : drain cfg env s (Event.appWillEnterForeground :: rest) =
            drain cfg env s rest := by simp [drain, ha]
        rw [hstep]
        exact ih s hr
    | other n =>
      have hr : Event.quit ∈ rest := by
        rcases List.mem_cons.mp h with h0 | h0
        · simp at h0
        · exact h0
      have hstep : drain cfg env s (Event.other n :: rest) =
          drain cfg env s rest := by simp [drain]
      rw [hstep]
      exact ih s hr

/-- C3: if a quit event is among the events drained in an iteration,
the frame loop ends during that drain — by the quit (or an earlier
escape) break, or by an error from the resume path preceding it — and
no render call is issued from that iteration on. -/
theorem quit_event_stops_loop (cfg : Cfg) (env : Env) (s : XApp)
    (batch : List Event) (rest : List (List Event))
    (h : Event.quit ∈ batch) :
    (runLoop cfg env s (batch :: rest)).1 = [] ∧
    ((runLoop cfg env s (batch :: rest)).2 = RunOutcome.quitOk ∨
      ∃ e, (runLoop cfg env s (batch :: rest)).2 = RunOutcome.error e) := by
  rcases drain_quit_not_done cfg env batch s h with hd | ⟨e, hd⟩
  · exact ⟨by simp [runLoop, hd], Or.inl (by simp [runLoop, hd])⟩
  · exact ⟨by simp [runLoop, hd], Or.inr ⟨e, by simp [runLoop, hd]⟩⟩

/-- Witness for C3: a batch carrying a quit event (after an ignored
event) with one further batch scheduled yields no render call. -/
theorem quit_event_stops_loop_witness :
    Event.quit ∈ [Event.other 0, Event.quit] ∧
    ((runLoop cfgDesk envOk stateOk
        ([Event.other 0, Event.quit] :: [[Event.other 1]])).1 = [] ∧
      ((runLoop cfgDesk envOk stateOk
          ([Event.other 0, Event.quit] :: [[Event.other 1]])).2 =
          RunOutcome.quitOk ∨
        ∃ e, (runLoop cfgDesk envOk stateOk
            ([Event.other 0, Event.quit] :: [[Event.other 1]])).2 =
          RunOutcome.error e)) :=
  ⟨by decide,
    quit_event_stops_loop cfgDesk envOk stateOk [Event.other 0, Event.quit]
      [[Event.other 1]] (by decide)⟩

/-- C6: the Android foreground-resume path re-runs surface
acquisition; on success it replaces only the surface field — the
pipeline, device, queue, surface configuration, surface format, window
and event pump are all unchanged (identity-stable) — and the drain
continues with that updated context. -/
theorem resume_replaces_only_surface (cfg : Cfg) (env : Env) (s : XApp)
    (w sid : Nat) (rest : List Event)
    (ha : cfg.android = true) (hw : s.window = some w)
    (hi : s.wgpu_intance = some ())
    (hc : env.create_surface = .ok sid) :
    XApp.init_surface env s = ({ s with surface := some sid }, none) ∧
    drain cfg env s (Event.appWillEnterForeground :: rest) =
      drain cfg env { s with surface := some sid } rest ∧
    ({ s with surface := some sid }).pipeline = s.pipeline ∧
    ({ s with surface := some sid }).device = s.device ∧
    ({ s with surface := some sid }).queue = s.queue ∧
    ({ s with surface := some sid }).config = s.config ∧
    ({ s with surface := some sid }).surface_format = s.surface_format ∧
    ({ s with surface := some sid }).window = s.window ∧
    ({ s with surface := some sid }).event_pump = s.event_pump ∧
    ({ s with surface := some sid }).surface = some sid := by
  have h1 : XApp.init_surface env s = ({ s with surface := some sid }, none) :=
    by simp [XApp.init_surface, hw, hc]
  exact ⟨h1, by simp [drain, ha, hi, h1], rfl, rfl, rfl, rfl, rfl, rfl,
    rfl, rfl⟩

/-- Witness for C6 at the Android bootstrap result `stateOkDroid`. -/
theorem resume_replaces_only_surface_witness :
    cfgDroid.android = true ∧ stateOkDroid.window = some 1 ∧
    stateOkDroid.wgpu_intance = some () ∧
    envOk.create_surface = .ok 2 ∧
    (XApp.init_surface envOk stateOkDroid =
        ({ stateOkDroid with surface := some 2 }, none) ∧
      drain cfgDroid envOk stateOkDroid (Event.appWillEnterForeground :: []) =
        drain cfgDroid envOk { stateOkDroid with surface := some 2 } [] ∧
      ({ stateOkDroid with surface := some 2 }).pipeline =
        stateOkDroid.pipeline ∧
      ({ stateOkDroid with surface := some 2 }).device = stateOkDroid.device ∧
      ({ stateOkDroid with surface := some 2 }).queue = stateOkDroid.queue ∧
      ({ stateOkDroid with surface := some 2 }).config = stateOkDroid.config ∧
      ({ stateOkDroid with surface := some 2 }).surface_format =
        stateOkDroid.surface_format ∧
      ({ stateOkDroid with surface := some 2 }).window = stateOkDroid.window ∧
      ({ stateOkDroid with surface := some 2 }).event_pump =
        stateOkDroid.event_pump ∧
      ({ stateOkDroid with surface := some 2 }).surface = some 2) :=
  ⟨rfl, rfl, rfl, rfl,
    resume_replaces_only_surface cfgDroid envOk stateOkDroid 1 2 []
      rfl rfl rfl rfl⟩

/-- C9 counterexample: after an `init` call that failed (at the window
build), the event pump is already populated, so `run` does not return
the event-pump error: it enters the frame loop and invokes the
renderer (which then reaches an unwrap panic on the missing surface). -/
theorem run_after_failed_init_cx :
    XApp.init cfgDesk envWinFail XApp.new =
      some (stateWinFail, some "win boom") ∧
    XApp.run cfgDesk envOk stateWinFail [[]] =
      ([Action.renderCall], RunOutcome.panic) ∧
    XApp.run cfgDesk envOk stateWinFail [[]] ≠
      ([], RunOutcome.error "Event pum is None") := by
  decide

/-- C9 (amended): on a freshly constructed context (`XApp::new`, with
`init` never called) `run` returns the event-pump string error without
entering the frame loop or invoking the renderer. -/
theorem run_on_new_returns_error (cfg : Cfg) (env : Env)
    (batches : List (List Event)) :
    XApp.run cfg env XApp.new batches =
      ([], RunOutcome.error "Event pum is None") := rfl

end LearnWgpu
